import Mathlib

/-!
Verification development for the az-vm-pool VM pool orchestration tool.

The source program drives a pool of cloud VMs: a naming scheme mapping a
pool index to a VM name and back, a gap-filling next-index computation, a
fan-out execution model applying per-VM steps over a remote shell, SAS
token issue for the pool data container, and pool lifecycle commands
(create, setup, deploy-task, kill-task, start-all, stop-all, delete).

Pure string and arithmetic code is embedded directly; the effectful
commands are embedded as functions from an environment (recording the
success of each remote call) to a trace of side-effecting actions, so the
ordering and presence of side effects can be stated and proved.
-/

set_option maxRecDepth 4000

namespace AzVmPool

/-! ## Naming scheme (az-vm-pool.py lines 314-326)

Names are modelled as lists of characters.  `splitOnChar` models the
Python `str.split` with an explicit one-character separator: splitting the
empty string yields one empty field, and n separators yield n+1 fields. -/

def splitOnChar (sep : Char) : List Char → List (List Char)
  | [] => [[]]
  | c :: cs =>
    if c = sep then [] :: splitOnChar sep cs
    else
      match splitOnChar sep cs with
      | [] => [[c]]
      | p :: ps => (c :: p) :: ps

/-- Numeric value of a decimal digit character. -/
def charToDigit (c : Char) : Nat := c.toNat - 48

/-- Python `int(s)` restricted to non-negative decimal literals: fails
(models the ValueError) on the empty string or any non-digit character.
The sign and whitespace forms Python also accepts are unreachable from
names produced by this naming scheme. -/
def parseNat (cs : List Char) : Option Nat :=
  if cs.isEmpty then none
  else if cs.all Char.isDigit then
    some (cs.foldl (fun acc c => 10 * acc + charToDigit c) 0)
  else none

/-- Decimal rendering of a natural number, big-endian, no leading zeros
(the rendering `"{0}".format(number)` performs for a non-negative int).
The first argument is fuel; it is always called with `n` itself, which is
enough since the value shrinks by division by ten each step. -/
def natToCharsCore : Nat → Nat → List Char
  | 0, _ => []
  | fuel + 1, n =>
    if n = 0 then []
    else natToCharsCore fuel (n / 10) ++ [Nat.digitChar (n % 10)]

def natToChars (n : Nat) : List Char :=
  if n = 0 then ['0'] else natToCharsCore n n

/-- Line 318-319: `name_from_number` renders `"{resource_group}-{number}"`. -/
def name_from_number (resource_group : List Char) (number : Nat) : List Char :=
  resource_group ++ '-' :: natToChars number

/-- Lines 314-316: `number_from_name` does `stem, number = vm_name.split("-")`
and then `int(number)`.  The two-name unpacking raises (here: `none`)
unless the split yields exactly two fields. -/
def number_from_name (vm_name : List Char) : Option Nat :=
  match splitOnChar '-' vm_name with
  | [_stem, number] => parseNat number
  | _ => none

/-! ### Next available index (lines 321-326)

`next_vm_name` sorts the pool indices, scans them in order, and at the
first element whose first-occurrence position in the sorted list differs
from its value returns `value - 1`; with no such element it returns
`length + 1`.  (Line 322 of the source calls `vm_number_from_name`, a name
defined nowhere in the module, so the Python raises NameError on any
non-empty pool; the evident intent is the adjacent `number_from_name`,
and the index computation is embedded under that reading.) -/

def insertSorted (x : Nat) : List Nat → List Nat
  | [] => [x]
  | y :: ys => if x ≤ y then x :: y :: ys else y :: insertSorted x ys

/-- Python `sorted` on a list of naturals (ascending). -/
def pySorted (l : List Nat) : List Nat := l.foldr insertSorted []

def next_vm_scan (sorted : List Nat) : List Nat → Option Nat
  | [] => none
  | x :: xs => if sorted.indexOf x ≠ x then some (x - 1) else next_vm_scan sorted xs

def next_vm_number (vm_numbers : List Nat) : Nat :=
  match next_vm_scan (pySorted vm_numbers) (pySorted vm_numbers) with
  | some n => n
  | none => (pySorted vm_numbers).length + 1

def next_vm_name (resource_group : List Char) (vm_numbers : List Nat) : List Char :=
  name_from_number resource_group (next_vm_number vm_numbers)

/-! ### Lemmas for the round trip -/

theorem splitOnChar_not_mem (sep : Char) (cs : List Char) (h : sep ∉ cs) :
    splitOnChar sep cs = [cs] := by
  induction cs with
  | nil => simp [splitOnChar]
  | cons c cs ih =>
    have hc : ¬(c = sep) := fun he => h (he ▸ List.mem_cons_self c cs)
    have hrest : splitOnChar sep cs = [cs] := ih (fun hm => h (List.mem_cons_of_mem c hm))
    simp [splitOnChar, hc, hrest]

theorem splitOnChar_append (sep : Char) (l1 l2 : List Char) (h : sep ∉ l1) :
    splitOnChar sep (l1 ++ sep :: l2) = l1 :: splitOnChar sep l2 := by
  induction l1 with
  | nil => simp [splitOnChar]
  | cons c l1 ih =>
    have hc : ¬(c = sep) := fun he => h (he ▸ List.mem_cons_self c l1)
    have hrest := ih (fun hm => h (List.mem_cons_of_mem c hm))
    simp [splitOnChar, hc, hrest]

theorem digitChar_spec : ∀ d : Nat, d < 10 →
    (Nat.digitChar d).isDigit = true ∧ charToDigit (Nat.digitChar d) = d := by
  decide

theorem natToCharsCore_foldl (fuel : Nat) : ∀ n a, n ≤ fuel →
    (natToCharsCore fuel n).foldl (fun acc c => 10 * acc + charToDigit c) a
      = a * 10 ^ (natToCharsCore fuel n).length + n := by
  induction fuel with
  | zero =>
    intro n a hn
    have hn0 : n = 0 := by omega
    subst hn0
    simp [natToCharsCore]
  | succ fuel ih =>
    intro n a hn
    by_cases h0 : n = 0
    · subst h0; simp [natToCharsCore]
    · have hdiv : n / 10 ≤ fuel := by omega
      simp only [natToCharsCore, h0, if_false, List.foldl_append, List.foldl_cons,
        List.foldl_nil, List.length_append, List.length_cons, List.length_nil]
      rw [ih (n / 10) a hdiv, (digitChar_spec (n % 10) (by omega)).2]
      generalize (natToCharsCore fuel (n / 10)).length = L
      have hmod : 10 * (n / 10) + n % 10 = n := Nat.div_add_mod n 10
      calc 10 * (a * 10 ^ L + n / 10) + n % 10
          = a * 10 ^ L * 10 + (10 * (n / 10) + n % 10) := by ring
        _ = a * 10 ^ L * 10 + n := by rw [hmod]
        _ = a * 10 ^ (L + 1) + n := by ring

theorem natToCharsCore_digits (fuel : Nat) : ∀ n, n ≤ fuel →
    ∀ c ∈ natToCharsCore fuel n, c.isDigit = true := by
  induction fuel with
  | zero =>
    intro n hn c hc
    have hn0 : n = 0 := by omega
    subst hn0
    simp [natToCharsCore] at hc
  | succ fuel ih =>
    intro n hn c hc
    by_cases h0 : n = 0
    · subst h0; simp [natToCharsCore] at hc
    · simp only [natToCharsCore, h0, if_false, List.mem_append,
        List.mem_singleton] at hc
      rcases hc with hc | hc
      · exact ih (n / 10) (by omega) c hc
      · subst hc; exact (digitChar_spec (n % 10) (by omega)).1

theorem natToCharsCore_ne_nil (fuel n : Nat) (hfuel : n ≤ fuel) (h0 : n ≠ 0) :
    natToCharsCore fuel n ≠ [] := by
  cases fuel with
  | zero => omega
  | succ fuel => simp [natToCharsCore, h0]

theorem parseNat_natToChars (n : Nat) : parseNat (natToChars n) = some n := by
  by_cases h0 : n = 0
  · subst h0; decide
  · have hne := natToCharsCore_ne_nil n n le_rfl h0
    have hempty : (natToCharsCore n n).isEmpty = false := by
      cases hl : natToCharsCore n n with
      | nil => exact absurd hl hne
      | cons a l => rfl
    have hall : (natToCharsCore n n).all Char.isDigit = true := by
      rw [List.all_eq_true]
      intro c hc
      exact natToCharsCore_digits n n le_rfl c hc
    have hfold := natToCharsCore_foldl n n 0 le_rfl
    simp only [natToChars, h0, if_false, parseNat, hempty, hall]
    simp [hfold]

theorem natToChars_no_dash (n : Nat) : ('-' : Char) ∉ natToChars n := by
  intro hmem
  by_cases h0 : n = 0
  · subst h0; exact absurd hmem (by decide)
  · simp only [natToChars, h0, if_false] at hmem
    have hd := natToCharsCore_digits n n le_rfl '-' hmem
    exact absurd hd (by decide)

/-- Claim C1 (amended): for every pool name that does not contain the
separator character, and every index i, converting the index to a VM name
with name_from_number and back with number_from_name yields i again. -/
theorem C1_round_trip (rg : List Char) (i : Nat) (h : ('-' : Char) ∉ rg) :
    number_from_name (name_from_number rg i) = some i := by
  unfold number_from_name name_from_number
  rw [splitOnChar_append '-' rg (natToChars i) h,
    splitOnChar_not_mem '-' (natToChars i) (natToChars_no_dash i)]
  exact parseNat_natToChars i

/-- Claim C1 counterexample: the round trip fails as soon as the pool name
itself contains the separator: for pool name "a-b" and index 0 the VM name
is "a-b-0", which splits into three fields, so the two-name unpacking in
number_from_name raises instead of returning 0. -/
theorem C1_counterexample :
    number_from_name (name_from_number ['a', '-', 'b'] 0) ≠ some 0 := by
  decide

theorem C1_round_trip_witness :
    (('-' : Char) ∉ ['p', 'o', 'o', 'l']) ∧
      number_from_name (name_from_number ['p', 'o', 'o', 'l'] 7) = some 7 :=
  ⟨by decide, C1_round_trip ['p', 'o', 'o', 'l'] 7 (by decide)⟩

/-- Claim C2: the source computation of the next available index is not
the smallest missing non-negative integer.  On the empty index set it
returns length + 1 = 1 where the claim demands 0, and on the gap-free set
0,1,2 it returns 4 where the claim demands 3; on 0,1,3 it happens to
return 2 as the claim says. -/
theorem C2_next_index_eval :
    next_vm_number [] = 1 ∧ next_vm_number [0, 1, 2] = 4 ∧
      next_vm_number [0, 1, 3] = 2 := by
  decide

/-! ## Effectful commands as traces

A VM carries the two attributes the embedded commands read.  Remote shell
commands are represented structurally; `Shell.render` gives the exact
string the source builds for each of them. -/

structure VM where
  name : String
  powerState : String
deriving DecidableEq

inductive Shell where
  | rmRf (dir : String)
  | chmodX (path : String)
  | killallScreen
  | runPath (path : String)
  | screenDetached (s : Shell)
  | exitCmd
deriving DecidableEq

def Shell.render : Shell → String
  | .rmRf d => "rm -r " ++ d
  | .chmodX p => "chmod +x " ++ p
  | .killallScreen => "killall screen"
  | .runPath p => p
  | .screenDetached s => "screen -d -m " ++ s.render
  | .exitCmd => "exit"

/-- Side-effecting actions a command can issue, in order, as a trace. -/
inductive Action where
  | runScript (vm : String) (cmd : Shell)
  | uploadDir (vm : String) (src : String) (dest : String)
  | vmStart (vm : String) (noWait : Bool)
  | vmDeallocate (vm : String) (noWait : Bool)
  | deleteVm (vm : String)
  | deleteNic (vm : String)
  | deletePublicIp (vm : String)
  | deleteOsDiskBlob (vm : String)
  | deleteOsContainer
  | createResourceGroup (name : String)
  | createStorageAccount
  | genSshKeys
  | uploadSshKeys
  | createContainer (name : String)
  | createVnet
  | createVm (index : Nat)
  | removeSshHost (vm : String)
  | testSsh (vm : String)
  | generateSas (container : String) (expiry : Nat)
  | writeLocalFile (path : String) (content : String)
  | uploadBlob (container : String) (file : String) (blob : String)
deriving DecidableEq

/-- Environment: the outcome of each external call.  `run vm cmd` is the
`subprocess.call(...) == 0` result of `ssh`, `scp vm src dest` that of the
recursive copy, and `containerExists` the storage-container existence
probe.  A failing remote call is a returned `false`, never an exception:
`subprocess.call` reports failure through the exit status. -/
structure Env where
  run : String → Shell → Bool
  scp : String → String → String → Bool
  containerExists : String → Bool

def detachShell (detach : Bool) (script : Shell) : Shell :=
  if detach then Shell.screenDetached script else script

/-- Lines 565-575: `vm_run_script` runs one command on one VM over ssh,
wrapping it in a detached screen session when `detach` is set, and returns
whether the exit status was zero. -/
def vm_run_script (env : Env) (vm : VM) (script : Shell) (detach : Bool) :
    List Action × Bool :=
  ([Action.runScript vm.name (detachShell detach script)],
    env.run vm.name (detachShell detach script))

/-- Lines 591-601: `vm_upload_dir` first runs `rm -r dest` on the VM, then
`scp -r src dest`, returning whether the copy succeeded. -/
def vm_upload_dir (env : Env) (vm : VM) (source_dir dest_dir : String) :
    List Action × Bool :=
  ((vm_run_script env vm (Shell.rmRf dest_dir) false).1
      ++ [Action.uploadDir vm.name source_dir dest_dir],
    env.scp vm.name source_dir dest_dir)

/-- Lines 587-589: `vm_make_exec` is `chmod +x path` over ssh. -/
def vm_make_exec (env : Env) (vm : VM) (script : String) : List Action × Bool :=
  vm_run_script env vm (Shell.chmodX script) false

/-! ## Remote filesystem semantics (for the copy-directory claim)

One VM's remote filesystem is a map from directory path to its optional
content.  `rm -r d` removes `d`; `scp -r src dest` installs the local
content of `src` at `dest` when `dest` is absent, and — because scp copies
*into* an existing directory — keeps the stale entries when `dest` is
already present.  User scripts are opaque and leave the layout alone. -/

abbrev DirContent := List (String × String)

abbrev RemoteFs := String → Option DirContent

def runShellFs (fs : RemoteFs) : Shell → RemoteFs
  | .rmRf d => fun p => if p = d then none else fs p
  | _ => fs

def applyAction (localFs : String → DirContent) (fs : RemoteFs) :
    Action → RemoteFs
  | .runScript _ s => runShellFs fs s
  | .uploadDir _ src dest => fun p =>
      if p = dest then
        match fs dest with
        | none => some (localFs src)
        | some old => some (old ++ localFs src)
      else fs p
  | _ => fs

def applyTrace (localFs : String → DirContent) (fs : RemoteFs)
    (trace : List Action) : RemoteFs :=
  trace.foldl (applyAction localFs) fs

/-! ## Per-VM steps and fan-out commands -/

/-- Lines 830-854: `setup_vm` uploads the setup directory, marks the entry
script executable and runs it (detached iff no-wait). -/
def setup_vm (env : Env) (noWait : Bool) (poolDir : String) (vm : VM) :
    List Action × Bool :=
  ((vm_upload_dir env vm (poolDir ++ "/setup") "setup").1
      ++ (vm_make_exec env vm "setup/run.sh").1
      ++ (vm_run_script env vm (Shell.runPath "setup/run.sh") noWait).1,
    (vm_run_script env vm (Shell.runPath "setup/run.sh") noWait).2)

/-- Lines 812-828: `setup_pool` warns and does nothing on an empty pool;
otherwise it applies `setup_vm` to every VM by a list comprehension,
collecting one entry per VM. -/
def setup_pool (env : Env) (noWait : Bool) (poolDir : String) (vms : List VM) :
    List Action × List (List Action × Bool) :=
  if vms.length = 0 then ([], [])
  else
    (((vms.map (setup_vm env noWait poolDir)).map Prod.fst).flatten,
      vms.map (setup_vm env noWait poolDir))

/-- Lines 922-930: `kill_task_vm` runs `killall screen` on one VM. -/
def kill_task_vm (env : Env) (vm : VM) : List Action × Bool :=
  vm_run_script env vm Shell.killallScreen false

/-- Lines 909-920: `kill_task` fans `kill_task_vm` out over the pool. -/
def kill_task (env : Env) (vms : List VM) : List Action :=
  if vms.length = 0 then []
  else (vms.map (fun vm => (kill_task_vm env vm).1)).flatten

/-- Lines 871-882: `deploy_task_vm` uploads the task directory to one VM. -/
def deploy_task_vm (env : Env) (poolDir : String) (vm : VM) :
    List Action × Bool :=
  vm_upload_dir env vm (poolDir ++ "/task") "task"

/-- Lines 856-869: `deploy_task` warns and stops on an empty pool;
otherwise it first runs `kill_task` and then uploads the task directory to
every VM. -/
def deploy_task (env : Env) (poolDir : String) (vms : List VM) : List Action :=
  if vms.length = 0 then []
  else kill_task env vms
    ++ (vms.map (fun vm => (deploy_task_vm env poolDir vm).1)).flatten

/-- Lines 950-966: `start_vm` returns without issuing anything when the VM
is already running, else issues `vm start` (with no-wait if requested). -/
def start_vm (noWait : Bool) (vm : VM) : List Action :=
  if vm.powerState = "VM running" then []
  else [Action.vmStart vm.name noWait]

/-- Lines 982-998: `shutdown_vm` returns without issuing anything when the
VM is already deallocated, else issues `vm deallocate`. -/
def shutdown_vm (noWait : Bool) (vm : VM) : List Action :=
  if vm.powerState = "VM deallocated" then []
  else [Action.vmDeallocate vm.name noWait]

def start_all (noWait : Bool) (vms : List VM) : List Action :=
  (vms.map (start_vm noWait)).flatten

def shutdown_all (noWait : Bool) (vms : List VM) : List Action :=
  (vms.map (shutdown_vm noWait)).flatten

/-! ## SAS token issue (lines 526-560) -/

/-- The `%Y-%m-%dT%H:%MZ` expiry format drops the seconds: truncation of a
timestamp (in seconds) to minute precision. -/
def truncToMinute (t : Nat) : Nat := t - t % 60

/-- Line 526-527: `container_sas_filename` with the default prefixes. -/
def container_sas_filename (resource_group container_name : String) : String :=
  "azure_vm_pool_" ++ resource_group ++ "_sas_storage_container_"
    ++ container_name ++ ".txt"

/-- Lines 607-617: `upload_blob` creates the container when the existence
probe says it is missing, then uploads the file as the named blob. -/
def upload_blob (env : Env) (container_name file_path blob_name : String) :
    List Action :=
  (if env.containerExists container_name then []
    else [Action.createContainer container_name])
    ++ [Action.uploadBlob container_name file_path blob_name]

/-- Lines 557-560: `upload_secret` uploads into the vmsecrets container. -/
def upload_secret (env : Env) (file_path blob_name : String) : List Action :=
  upload_blob env "vmsecrets" file_path blob_name

structure SasOutcome where
  expiry : Nat
  filePath : String
  fileName : String
  trace : List Action
deriving DecidableEq

/-- Lines 536-555: `pool_data_container_sas` computes
`expiry = utcnow() + timedelta(days=sas_expiry_days)`, requests the token
with that expiry truncated to the minute, writes the token to
`secrets/<pool-scoped filename>`, and uploads that file as a secret.
Time is seconds since an arbitrary epoch; a day is 86400 seconds. -/
def pool_data_container_sas (env : Env) (now sas_expiry_days : Nat)
    (resource_group token : String) : SasOutcome :=
  { expiry := truncToMinute (now + sas_expiry_days * 86400)
    filePath := "secrets/" ++ container_sas_filename resource_group "data"
    fileName := container_sas_filename resource_group "data"
    trace :=
      [Action.generateSas "data" (truncToMinute (now + sas_expiry_days * 86400)),
        Action.writeLocalFile
          ("secrets/" ++ container_sas_filename resource_group "data") token]
      ++ upload_secret env
          ("secrets/" ++ container_sas_filename resource_group "data")
          (container_sas_filename resource_group "data") }

/-! ## delete-pool (lines 1000-1042) -/

/-- Lines 1023-1042: per-VM deletion order: VM instance, NIC, public IP,
OS disk blob. -/
def delete_vm (vm : VM) : List Action :=
  [Action.deleteVm vm.name, Action.deleteNic vm.name,
    Action.deletePublicIp vm.name, Action.deleteOsDiskBlob vm.name]

/-- Lines 1000-1021: `delete_pool` prints the pool and returns when it is
empty; otherwise it prompts, and only on the exact answer "y" deletes
every VM and then the OS-disk container. -/
def delete_pool (vms : List VM) (resp : String) : List Action :=
  if vms.length = 0 then []
  else if resp = "y" then (vms.map delete_vm).flatten ++ [Action.deleteOsContainer]
  else []

/-! ## create-pool precondition (lines 720-757)

`sys.exit()` with no argument raises SystemExit(None), which terminates
the interpreter with exit status 0.  The result is the trace of side
effects together with `some code` when the process exits early. -/

def create_pool_body (existingVms : List VM) (numVms : Nat)
    (newVms : List VM) : List Action :=
  if 0 < existingVms.length then []
  else [Action.createStorageAccount, Action.genSshKeys, Action.uploadSshKeys,
      Action.createContainer "data", Action.createVnet]
    ++ ((List.range numVms).map Action.createVm)
    ++ (newVms.map fun vm => Action.removeSshHost vm.name)
    ++ (newVms.map fun vm => Action.testSsh vm.name)

def create_pool (rgExists force : Bool) (location : Option String)
    (existingVms : List VM) (numVms : Nat) (rg : String) (newVms : List VM) :
    List Action × Option Nat :=
  if rgExists then (create_pool_body existingVms numVms newVms, none)
  else if force && location.isSome then
    (Action.createResourceGroup rg :: create_pool_body existingVms numVms newVms,
      none)
  else ([], some 0)

/-! ## Concrete inputs used by the witnesses -/

def envOk : Env :=
  { run := fun _ _ => true, scp := fun _ _ _ => true
    containerExists := fun _ => true }

def envFail : Env :=
  { run := fun _ _ => false, scp := fun _ _ _ => false
    containerExists := fun _ => true }

def vmsDemo : List VM :=
  [{ name := "demo-0", powerState := "VM running" },
    { name := "demo-1", powerState := "VM deallocated" }]

/-! ## Claims C3-C10 -/

/-- Claim C3: a fan-out operation (setup-pool) over N VMs applies the
per-VM step to every VM in order even when the step fails on some VM k:
the aggregate result is exactly the per-VM step mapped over the whole VM
list, so it has exactly N entries and nothing is skipped or rolled back. -/
theorem C3_fan_out (env : Env) (noWait : Bool) (poolDir : String)
    (vms : List VM) (k : Nat) (hk : k < vms.length)
    (hfail : (setup_vm env noWait poolDir (vms.get ⟨k, hk⟩)).2 = false) :
    (setup_pool env noWait poolDir vms).2
        = vms.map (setup_vm env noWait poolDir) ∧
      (setup_pool env noWait poolDir vms).2.length = vms.length := by
  have hne : ¬(vms.length = 0) := by omega
  constructor
  · simp [setup_pool, hne]
  · simp [setup_pool, hne]

theorem C3_fan_out_witness :
    (setup_pool envFail false "pool" vmsDemo).2
        = vmsDemo.map (setup_vm envFail false "pool") ∧
      (setup_pool envFail false "pool" vmsDemo).2.length = vmsDemo.length :=
  C3_fan_out envFail false "pool" vmsDemo 0 (by decide) (by decide)

/-- Claim C4: vm_upload_dir records a remove-then-copy trace — first
`rm -r dest` on the VM, then the recursive copy — so running that trace on
any remote filesystem, whatever was at the destination beforehand, leaves
the destination holding exactly the source content, with no leftovers. -/
theorem C4_remove_then_copy (env : Env) (vm : VM) (src dest : String)
    (localFs : String → DirContent) (fs : RemoteFs)
    (hok : (vm_upload_dir env vm src dest).2 = true) :
    (vm_upload_dir env vm src dest).1
        = [Action.runScript vm.name (Shell.rmRf dest),
            Action.uploadDir vm.name src dest] ∧
      applyTrace localFs fs (vm_upload_dir env vm src dest).1 dest
        = some (localFs src) := by
  refine ⟨rfl, ?_⟩
  show applyTrace localFs fs
      [Action.runScript vm.name (Shell.rmRf dest),
        Action.uploadDir vm.name src dest] dest = some (localFs src)
  simp [applyTrace, applyAction, runShellFs]

def vmDemo0 : VM := { name := "demo-0", powerState := "VM running" }

def localDemo : String → DirContent := fun _ => [("run.sh", "echo hi")]

def fsDemo : RemoteFs :=
  fun p => if p = "task" then some [("stale.txt", "old")] else none

theorem C4_remove_then_copy_witness :
    (vm_upload_dir envOk vmDemo0 "pool/task" "task").1
        = [Action.runScript "demo-0" (Shell.rmRf "task"),
            Action.uploadDir "demo-0" "pool/task" "task"] ∧
      applyTrace localDemo fsDemo
          (vm_upload_dir envOk vmDemo0 "pool/task" "task").1 "task"
        = some (localDemo "pool/task") :=
  C4_remove_then_copy envOk vmDemo0 "pool/task" "task" localDemo fsDemo rfl

/-- Claim C5: on a populated pool, deploy-task first performs the whole
kill-task pass (a `killall screen` on every VM, and nothing else) and only
afterwards uploads the task directory to every VM: the trace is the
kill-task trace followed by the upload traces. -/
theorem C5_kill_before_upload (env : Env) (poolDir : String) (vms : List VM)
    (h : vms ≠ []) :
    deploy_task env poolDir vms
        = kill_task env vms
          ++ (vms.map (fun vm => (deploy_task_vm env poolDir vm).1)).flatten ∧
      (∀ vm ∈ vms,
        Action.runScript vm.name Shell.killallScreen ∈ kill_task env vms) ∧
      (∀ a ∈ kill_task env vms,
        ∃ vmName, a = Action.runScript vmName Shell.killallScreen) ∧
      (∀ vm ∈ vms,
        Action.uploadDir vm.name (poolDir ++ "/task") "task"
          ∈ (vms.map (fun vm => (deploy_task_vm env poolDir vm).1)).flatten) := by
  have hne : ¬(vms.length = 0) := by
    simpa [List.length_eq_zero] using h
  refine ⟨by simp [deploy_task, hne], ?_, ?_, ?_⟩
  · intro vm hvm
    rw [kill_task, if_neg hne, List.mem_flatten]
    refine ⟨(kill_task_vm env vm).1, List.mem_map_of_mem _ hvm, ?_⟩
    show Action.runScript vm.name Shell.killallScreen
        ∈ [Action.runScript vm.name Shell.killallScreen]
    simp
  · intro a ha
    rw [kill_task, if_neg hne, List.mem_flatten] at ha
    obtain ⟨s, hs, has⟩ := ha
    rw [List.mem_map] at hs
    obtain ⟨vm, _, rfl⟩ := hs
    have : a ∈ [Action.runScript vm.name Shell.killallScreen] := has
    rw [List.mem_singleton] at this
    exact ⟨vm.name, this⟩
  · intro vm hvm
    rw [List.mem_flatten]
    refine ⟨(deploy_task_vm env poolDir vm).1, List.mem_map_of_mem _ hvm, ?_⟩
    show Action.uploadDir vm.name (poolDir ++ "/task") "task"
        ∈ [Action.runScript vm.name (Shell.rmRf "task"),
            Action.uploadDir vm.name (poolDir ++ "/task") "task"]
    simp

theorem C5_kill_before_upload_witness :
    deploy_task envOk "pool" vmsDemo
        = kill_task envOk vmsDemo
          ++ (vmsDemo.map (fun vm => (deploy_task_vm envOk "pool" vm).1)).flatten ∧
      (∀ vm ∈ vmsDemo,
        Action.runScript vm.name Shell.killallScreen ∈ kill_task envOk vmsDemo) ∧
      (∀ a ∈ kill_task envOk vmsDemo,
        ∃ vmName, a = Action.runScript vmName Shell.killallScreen) ∧
      (∀ vm ∈ vmsDemo,
        Action.uploadDir vm.name ("pool" ++ "/task") "task"
          ∈ (vmsDemo.map (fun vm => (deploy_task_vm envOk "pool" vm).1)).flatten) :=
  C5_kill_before_upload envOk "pool" vmsDemo (by decide)

/-- Claim C6: the per-VM step of start-all issues no start call on a VM
already running, and the per-VM step of stop-all issues no deallocate call
on a VM already deallocated: in both cases the trace is empty. -/
theorem C6_skip_in_target_state (noWait : Bool) (vm : VM) :
    (vm.powerState = "VM running" → start_vm noWait vm = []) ∧
      (vm.powerState = "VM deallocated" → shutdown_vm noWait vm = []) :=
  ⟨fun h => by simp [start_vm, h], fun h => by simp [shutdown_vm, h]⟩

theorem C6_skip_in_target_state_witness :
    start_vm false { name := "demo-0", powerState := "VM running" } = [] ∧
      shutdown_vm false { name := "demo-1", powerState := "VM deallocated" }
        = [] :=
  ⟨(C6_skip_in_target_state false
      { name := "demo-0", powerState := "VM running" }).1 rfl,
    (C6_skip_in_target_state false
      { name := "demo-1", powerState := "VM deallocated" }).2 rfl⟩

/-- Claim C7: issuing a token with a TTL of d days sets the expiry to the
issue time plus exactly d days, truncated to minute precision; with d = 0
the expiry does not exceed the issue time, so the token expires
immediately; and the token is written to the pool-scoped local secrets
file and uploaded into the secrets container. -/
theorem C7_sas_token (env : Env) (now d : Nat) (rg token : String) :
    (pool_data_container_sas env now d rg token).expiry
        = now - now % 60 + d * 86400 ∧
      (d = 0 → (pool_data_container_sas env now d rg token).expiry ≤ now) ∧
      Action.writeLocalFile (pool_data_container_sas env now d rg token).filePath
          token ∈ (pool_data_container_sas env now d rg token).trace ∧
      Action.uploadBlob "vmsecrets"
          (pool_data_container_sas env now d rg token).filePath
          (pool_data_container_sas env now d rg token).fileName
        ∈ (pool_data_container_sas env now d rg token).trace ∧
      (pool_data_container_sas env now d rg token).filePath
        = "secrets/" ++ container_sas_filename rg "data" := by
  refine ⟨?_, ?_, ?_, ?_, rfl⟩
  · simp only [pool_data_container_sas, truncToMinute]
    omega
  · intro hd
    subst hd
    simp only [pool_data_container_sas, truncToMinute]
    omega
  · simp [pool_data_container_sas]
  · cases hc : env.containerExists "vmsecrets" <;>
      simp [pool_data_container_sas, upload_secret, upload_blob, hc]

theorem C7_sas_token_witness :
    (pool_data_container_sas envOk 123 0 "demo" "tok").expiry
        = 123 - 123 % 60 + 0 * 86400 ∧
      (pool_data_container_sas envOk 123 0 "demo" "tok").expiry ≤ 123 ∧
      Action.writeLocalFile
          (pool_data_container_sas envOk 123 0 "demo" "tok").filePath "tok"
        ∈ (pool_data_container_sas envOk 123 0 "demo" "tok").trace ∧
      Action.uploadBlob "vmsecrets"
          (pool_data_container_sas envOk 123 0 "demo" "tok").filePath
          (pool_data_container_sas envOk 123 0 "demo" "tok").fileName
        ∈ (pool_data_container_sas envOk 123 0 "demo" "tok").trace ∧
      (pool_data_container_sas envOk 123 0 "demo" "tok").filePath
        = "secrets/" ++ container_sas_filename "demo" "data" :=
  ⟨(C7_sas_token envOk 123 0 "demo" "tok").1,
    (C7_sas_token envOk 123 0 "demo" "tok").2.1 rfl,
    (C7_sas_token envOk 123 0 "demo" "tok").2.2.1,
    (C7_sas_token envOk 123 0 "demo" "tok").2.2.2.1,
    (C7_sas_token envOk 123 0 "demo" "tok").2.2.2.2⟩

/-- Claim C8: delete-pool on a pool with zero VMs performs no deletion at
all — no VM, NIC, public address or OS-disk blob deletion, and no OS-disk
container deletion: the trace is empty, whatever the prompt answer would
have been. -/
theorem C8_delete_empty_pool (vms : List VM) (resp : String)
    (h : vms.length = 0) : delete_pool vms resp = [] := by
  simp [delete_pool, h]

theorem C8_delete_empty_pool_witness : delete_pool [] "y" = [] :=
  C8_delete_empty_pool [] "y" rfl

/-- Claim C9: when the operator answers the delete-pool confirmation with
anything other than "y", the operation exits with an empty trace: no VM,
NIC, public address, OS-disk blob or container deletion is attempted. -/
theorem C9_decline_no_side_effects (vms : List VM) (resp : String)
    (h : resp ≠ "y") : delete_pool vms resp = [] := by
  by_cases h0 : vms.length = 0 <;> simp [delete_pool, h0, h]

theorem C9_decline_no_side_effects_witness : delete_pool vmsDemo "n" = [] :=
  C9_decline_no_side_effects vmsDemo "n" (by decide)

/-- Claim C10 (amended): when create-pool finds the resource group absent
and the force flag with a region is not supplied, it terminates before any
side effect with an empty trace — but via a bare `sys.exit()`, whose exit
status is 0, not a non-zero-equivalent status. -/
theorem C10_precondition_exit (force : Bool) (location : Option String)
    (existingVms newVms : List VM) (numVms : Nat) (rg : String)
    (h : (force && location.isSome) = false) :
    (create_pool false force location existingVms numVms rg newVms).1 = [] ∧
      (create_pool false force location existingVms numVms rg newVms).2
        = some 0 := by
  simp [create_pool, h]

/-- Claim C10 counterexample: with the resource group absent and no force
flag, the process exit status recorded by the model is 0, so no non-zero
exit status exists at this input. -/
theorem C10_counterexample :
    ¬(∃ c, (create_pool false false none [] 2 "demo" []).2 = some c ∧
        c ≠ 0) := by
  rintro ⟨c, hc, hcne⟩
  have h0 : (create_pool false false none [] 2 "demo" []).2 = some 0 := rfl
  rw [h0] at hc
  exact hcne (Option.some.inj hc).symm

theorem C10_precondition_exit_witness :
    (create_pool false false none [] 2 "demo" []).1 = [] ∧
      (create_pool false false none [] 2 "demo" []).2 = some 0 :=
  C10_precondition_exit false none [] [] 2 "demo" rfl

end AzVmPool
